import Mathlib

/-! Syscall symbol table of xcapture (x86-64)

A shallow embedding of `xcapture/include/syscall_names_x86_64.h`: the
`struct_sysent` record, the designated-initializer list of `sysent0`, the
array the C compiler builds from it, and the `NR_SYSCALLS` count.
-/

namespace Xcapture

/-- The C record `struct sysent`: two `const char *` fields, each either a
null pointer (`none`) or a pointer to a string literal. -/
structure struct_sysent where
  abi : Option String
  name : Option String
deriving DecidableEq, Repr

/-- A zero-initialised record: both pointers null. C gives this value to every
array element that no designator names. -/
def zero_sysent : struct_sysent := ⟨none, none⟩

/-- The initializer list of `sysent0`, one triple per `[index] = {abi, name}`
line of the header, in source order. -/
def sysent0_init : List (Int × String × String) := [
  (0, "common", "read"),
  (1, "common", "write"),
  (2, "common", "open"),
  (3, "common", "close"),
  (4, "common", "stat"),
  (5, "common", "fstat"),
  (6, "common", "lstat"),
  (7, "common", "poll"),
  (8, "common", "lseek"),
  (9, "common", "mmap"),
  (10, "common", "mprotect"),
  (11, "common", "munmap"),
  (12, "common", "brk"),
  (13, "64", "rt_sigaction"),
  (14, "common", "rt_sigprocmask"),
  (15, "64", "rt_sigreturn"),
  (16, "64", "ioctl"),
  (17, "common", "pread64"),
  (18, "common", "pwrite64"),
  (19, "64", "readv"),
  (20, "64", "writev"),
  (21, "common", "access"),
  (22, "common", "pipe"),
  (23, "common", "select"),
  (24, "common", "sched_yield"),
  (25, "common", "mremap"),
  (26, "common", "msync"),
  (27, "common", "mincore"),
  (28, "common", "madvise"),
  (29, "common", "shmget"),
  (30, "common", "shmat"),
  (31, "common", "shmctl"),
  (32, "common", "dup"),
  (33, "common", "dup2"),
  (34, "common", "pause"),
  (35, "common", "nanosleep"),
  (36, "common", "getitimer"),
  (37, "common", "alarm"),
  (38, "common", "setitimer"),
  (39, "common", "getpid"),
  (40, "common", "sendfile"),
  (41, "common", "socket"),
  (42, "common", "connect"),
  (43, "common", "accept"),
  (44, "common", "sendto"),
  (45, "64", "recvfrom"),
  (46, "64", "sendmsg"),
  (47, "64", "recvmsg"),
  (48, "common", "shutdown"),
  (49, "common", "bind"),
  (50, "common", "listen"),
  (51, "common", "getsockname"),
  (52, "common", "getpeername"),
  (53, "common", "socketpair"),
  (54, "64", "setsockopt"),
  (55, "64", "getsockopt"),
  (56, "common", "clone"),
  (57, "common", "fork"),
  (58, "common", "vfork"),
  (59, "64", "execve"),
  (60, "common", "exit"),
  (61, "common", "wait4"),
  (62, "common", "kill"),
  (63, "common", "uname"),
  (64, "common", "semget"),
  (65, "common", "semop"),
  (66, "common", "semctl"),
  (67, "common", "shmdt"),
  (68, "common", "msgget"),
  (69, "common", "msgsnd"),
  (70, "common", "msgrcv"),
  (71, "common", "msgctl"),
  (72, "common", "fcntl"),
  (73, "common", "flock"),
  (74, "common", "fsync"),
  (75, "common", "fdatasync"),
  (76, "common", "truncate"),
  (77, "common", "ftruncate"),
  (78, "common", "getdents"),
  (79, "common", "getcwd"),
  (80, "common", "chdir"),
  (81, "common", "fchdir"),
  (82, "common", "rename"),
  (83, "common", "mkdir"),
  (84, "common", "rmdir"),
  (85, "common", "creat"),
  (86, "common", "link"),
  (87, "common", "unlink"),
  (88, "common", "symlink"),
  (89, "common", "readlink"),
  (90, "common", "chmod"),
  (91, "common", "fchmod"),
  (92, "common", "chown"),
  (93, "common", "fchown"),
  (94, "common", "lchown"),
  (95, "common", "umask"),
  (96, "common", "gettimeofday"),
  (97, "common", "getrlimit"),
  (98, "common", "getrusage"),
  (99, "common", "sysinfo"),
  (100, "common", "times"),
  (101, "64", "ptrace"),
  (102, "common", "getuid"),
  (103, "common", "syslog"),
  (104, "common", "getgid"),
  (105, "common", "setuid"),
  (106, "common", "setgid"),
  (107, "common", "geteuid"),
  (108, "common", "getegid"),
  (109, "common", "setpgid"),
  (110, "common", "getppid"),
  (111, "common", "getpgrp"),
  (112, "common", "setsid"),
  (113, "common", "setreuid"),
  (114, "common", "setregid"),
  (115, "common", "getgroups"),
  (116, "common", "setgroups"),
  (117, "common", "setresuid"),
  (118, "common", "getresuid"),
  (119, "common", "setresgid"),
  (120, "common", "getresgid"),
  (121, "common", "getpgid"),
  (122, "common", "setfsuid"),
  (123, "common", "setfsgid"),
  (124, "common", "getsid"),
  (125, "common", "capget"),
  (126, "common", "capset"),
  (127, "64", "rt_sigpending"),
  (128, "64", "rt_sigtimedwait"),
  (129, "64", "rt_sigqueueinfo"),
  (130, "common", "rt_sigsuspend"),
  (131, "64", "sigaltstack"),
  (132, "common", "utime"),
  (133, "common", "mknod"),
  (134, "64", "uselib"),
  (135, "common", "personality"),
  (136, "common", "ustat"),
  (137, "common", "statfs"),
  (138, "common", "fstatfs"),
  (139, "common", "sysfs"),
  (140, "common", "getpriority"),
  (141, "common", "setpriority"),
  (142, "common", "sched_setparam"),
  (143, "common", "sched_getparam"),
  (144, "common", "sched_setscheduler"),
  (145, "common", "sched_getscheduler"),
  (146, "common", "sched_get_priority_max"),
  (147, "common", "sched_get_priority_min"),
  (148, "common", "sched_rr_get_interval"),
  (149, "common", "mlock"),
  (150, "common", "munlock"),
  (151, "common", "mlockall"),
  (152, "common", "munlockall"),
  (153, "common", "vhangup"),
  (154, "common", "modify_ldt"),
  (155, "common", "pivot_root"),
  (156, "64", "_sysctl"),
  (157, "common", "prctl"),
  (158, "common", "arch_prctl"),
  (159, "common", "adjtimex"),
  (160, "common", "setrlimit"),
  (161, "common", "chroot"),
  (162, "common", "sync"),
  (163, "common", "acct"),
  (164, "common", "settimeofday"),
  (165, "common", "mount"),
  (166, "common", "umount2"),
  (167, "common", "swapon"),
  (168, "common", "swapoff"),
  (169, "common", "reboot"),
  (170, "common", "sethostname"),
  (171, "common", "setdomainname"),
  (172, "common", "iopl"),
  (173, "common", "ioperm"),
  (174, "64", "create_module"),
  (175, "common", "init_module"),
  (176, "common", "delete_module"),
  (177, "64", "get_kernel_syms"),
  (178, "64", "query_module"),
  (179, "common", "quotactl"),
  (180, "64", "nfsservctl"),
  (181, "common", "getpmsg"),
  (182, "common", "putpmsg"),
  (183, "common", "afs_syscall"),
  (184, "common", "tuxcall"),
  (185, "common", "security"),
  (186, "common", "gettid"),
  (187, "common", "readahead"),
  (188, "common", "setxattr"),
  (189, "common", "lsetxattr"),
  (190, "common", "fsetxattr"),
  (191, "common", "getxattr"),
  (192, "common", "lgetxattr"),
  (193, "common", "fgetxattr"),
  (194, "common", "listxattr"),
  (195, "common", "llistxattr"),
  (196, "common", "flistxattr"),
  (197, "common", "removexattr"),
  (198, "common", "lremovexattr"),
  (199, "common", "fremovexattr"),
  (200, "common", "tkill"),
  (201, "common", "time"),
  (202, "common", "futex"),
  (203, "common", "sched_setaffinity"),
  (204, "common", "sched_getaffinity"),
  (205, "64", "set_thread_area"),
  (206, "64", "io_setup"),
  (207, "common", "io_destroy"),
  (208, "common", "io_getevents"),
  (209, "64", "io_submit"),
  (210, "common", "io_cancel"),
  (211, "64", "get_thread_area"),
  (212, "common", "lookup_dcookie"),
  (213, "common", "epoll_create"),
  (214, "64", "epoll_ctl_old"),
  (215, "64", "epoll_wait_old"),
  (216, "common", "remap_file_pages"),
  (217, "common", "getdents64"),
  (218, "common", "set_tid_address"),
  (219, "common", "restart_syscall"),
  (220, "common", "semtimedop"),
  (221, "common", "fadvise64"),
  (222, "64", "timer_create"),
  (223, "common", "timer_settime"),
  (224, "common", "timer_gettime"),
  (225, "common", "timer_getoverrun"),
  (226, "common", "timer_delete"),
  (227, "common", "clock_settime"),
  (228, "common", "clock_gettime"),
  (229, "common", "clock_getres"),
  (230, "common", "clock_nanosleep"),
  (231, "common", "exit_group"),
  (232, "common", "epoll_wait"),
  (233, "common", "epoll_ctl"),
  (234, "common", "tgkill"),
  (235, "common", "utimes"),
  (236, "64", "vserver"),
  (237, "common", "mbind"),
  (238, "common", "set_mempolicy"),
  (239, "common", "get_mempolicy"),
  (240, "common", "mq_open"),
  (241, "common", "mq_unlink"),
  (242, "common", "mq_timedsend"),
  (243, "common", "mq_timedreceive"),
  (244, "64", "mq_notify"),
  (245, "common", "mq_getsetattr"),
  (246, "64", "kexec_load"),
  (247, "64", "waitid"),
  (248, "common", "add_key"),
  (249, "common", "request_key"),
  (250, "common", "keyctl"),
  (251, "common", "ioprio_set"),
  (252, "common", "ioprio_get"),
  (253, "common", "inotify_init"),
  (254, "common", "inotify_add_watch"),
  (255, "common", "inotify_rm_watch"),
  (256, "common", "migrate_pages"),
  (257, "common", "openat"),
  (258, "common", "mkdirat"),
  (259, "common", "mknodat"),
  (260, "common", "fchownat"),
  (261, "common", "futimesat"),
  (262, "common", "newfstatat"),
  (263, "common", "unlinkat"),
  (264, "common", "renameat"),
  (265, "common", "linkat"),
  (266, "common", "symlinkat"),
  (267, "common", "readlinkat"),
  (268, "common", "fchmodat"),
  (269, "common", "faccessat"),
  (270, "common", "pselect6"),
  (271, "common", "ppoll"),
  (272, "common", "unshare"),
  (273, "64", "set_robust_list"),
  (274, "64", "get_robust_list"),
  (275, "common", "splice"),
  (276, "common", "tee"),
  (277, "common", "sync_file_range"),
  (278, "64", "vmsplice"),
  (279, "64", "move_pages"),
  (280, "common", "utimensat"),
  (281, "common", "epoll_pwait"),
  (282, "common", "signalfd"),
  (283, "common", "timerfd_create"),
  (284, "common", "eventfd"),
  (285, "common", "fallocate"),
  (286, "common", "timerfd_settime"),
  (287, "common", "timerfd_gettime"),
  (288, "common", "accept4"),
  (289, "common", "signalfd4"),
  (290, "common", "eventfd2"),
  (291, "common", "epoll_create1"),
  (292, "common", "dup3"),
  (293, "common", "pipe2"),
  (294, "common", "inotify_init1"),
  (295, "64", "preadv"),
  (296, "64", "pwritev"),
  (297, "64", "rt_tgsigqueueinfo"),
  (298, "common", "perf_event_open"),
  (299, "64", "recvmmsg"),
  (300, "common", "fanotify_init"),
  (301, "common", "fanotify_mark"),
  (302, "common", "prlimit64"),
  (303, "common", "name_to_handle_at"),
  (304, "common", "open_by_handle_at"),
  (305, "common", "clock_adjtime"),
  (306, "common", "syncfs"),
  (307, "64", "sendmmsg"),
  (308, "common", "setns"),
  (309, "common", "getcpu"),
  (310, "64", "process_vm_readv"),
  (311, "64", "process_vm_writev"),
  (312, "common", "kcmp"),
  (313, "common", "finit_module"),
  (314, "common", "sched_setattr"),
  (315, "common", "sched_getattr"),
  (316, "common", "renameat2"),
  (317, "common", "seccomp"),
  (318, "common", "getrandom"),
  (319, "common", "memfd_create"),
  (320, "common", "kexec_file_load"),
  (321, "common", "bpf"),
  (322, "64", "execveat"),
  (323, "common", "userfaultfd"),
  (324, "common", "membarrier"),
  (325, "common", "mlock2"),
  (326, "common", "copy_file_range"),
  (327, "64", "preadv2"),
  (328, "64", "pwritev2"),
  (329, "common", "pkey_mprotect"),
  (330, "common", "pkey_alloc"),
  (331, "common", "pkey_free"),
  (332, "common", "statx"),
  (333, "common", "io_pgetevents"),
  (334, "common", "rseq"),
  (424, "common", "pidfd_send_signal"),
  (425, "common", "io_uring_setup"),
  (426, "common", "io_uring_enter"),
  (427, "common", "io_uring_register"),
  (428, "common", "open_tree"),
  (429, "common", "move_mount"),
  (430, "common", "fsopen"),
  (431, "common", "fsconfig"),
  (432, "common", "fsmount"),
  (433, "common", "fspick"),
  (434, "common", "pidfd_open"),
  (435, "common", "clone3"),
  (437, "common", "openat2"),
  (438, "common", "pidfd_getfd"),
  (439, "common", "faccessat2"),
  (440, "common", "process_madvise"),
  (441, "common", "epoll_pwait2"),
  (442, "common", "mount_setattr"),
  (443, "common", "quotactl_fd"),
  (444, "common", "landlock_create_ruleset"),
  (445, "common", "landlock_add_rule"),
  (446, "common", "landlock_restrict_self"),
  (447, "common", "memfd_secret"),
  (448, "common", "process_mrelease"),
  (449, "common", "futex_waitv"),
  (512, "x32", "rt_sigaction"),
  (513, "x32", "rt_sigreturn"),
  (514, "x32", "ioctl"),
  (515, "x32", "readv"),
  (516, "x32", "writev"),
  (517, "x32", "recvfrom"),
  (518, "x32", "sendmsg"),
  (519, "x32", "recvmsg"),
  (520, "x32", "execve"),
  (521, "x32", "ptrace"),
  (522, "x32", "rt_sigpending"),
  (523, "x32", "rt_sigtimedwait"),
  (524, "x32", "rt_sigqueueinfo"),
  (525, "x32", "sigaltstack"),
  (526, "x32", "timer_create"),
  (527, "x32", "mq_notify"),
  (528, "x32", "kexec_load"),
  (529, "x32", "waitid"),
  (530, "x32", "set_robust_list"),
  (531, "x32", "get_robust_list"),
  (532, "x32", "vmsplice"),
  (533, "x32", "move_pages"),
  (534, "x32", "preadv"),
  (535, "x32", "pwritev"),
  (536, "x32", "rt_tgsigqueueinfo"),
  (537, "x32", "recvmmsg"),
  (538, "x32", "sendmmsg"),
  (539, "x32", "process_vm_readv"),
  (540, "x32", "process_vm_writev"),
  (541, "x32", "setsockopt"),
  (542, "x32", "getsockopt"),
  (543, "x32", "io_setup"),
  (544, "x32", "io_submit"),
  (545, "x32", "execveat"),
  (546, "x32", "preadv2"),
  (547, "x32", "pwritev2")
]

/-- Progress of a C array initialisation: `size` elements exist so far and
`elems` holds them from the highest index down to index 0. -/
structure InitState where
  size : Nat
  elems : List struct_sysent

/-- One initialiser `[i] = {abi, name}` applied to the array built so far.
A negative index is a constraint violation (no array). An index at or past the
current end extends the array, the skipped elements being zero-initialised; an
index inside the array overrides the element stored there earlier. -/
def designate (st : InitState) (d : Int × String × String) : Option InitState :=
  if d.1 < 0 then none
  else
    let i := d.1.toNat
    let v : struct_sysent := ⟨some d.2.1, some d.2.2⟩
    if i < st.size then some ⟨st.size, st.elems.set (st.size - 1 - i) v⟩
    else some ⟨i + 1, v :: (List.replicate (i - st.size) zero_sysent ++ st.elems)⟩

/-- Array of unknown size built from a designated-initialiser list, applying
the initialisers in list order; `none` when the list is malformed. -/
def initArray (ds : List (Int × String × String)) : Option (List struct_sysent) :=
  (ds.foldlM designate ⟨0, []⟩).map fun st => st.elems.reverse

/-- The table `sysent0[]`. -/
def sysent0 : List struct_sysent := (initArray sysent0_init).getD []

/-- Size in bytes of one `struct_sysent` on x86-64: two 8-byte pointers. -/
def sizeof_struct_sysent : Nat := 8 + 8

/-- The value of `sizeof(sysent0)`. -/
def sizeof_sysent0 : Nat := sysent0.length * sizeof_struct_sysent

/-- The macro `NR_SYSCALLS`: `sizeof(sysent0) / sizeof(sysent0[0])`. -/
def NR_SYSCALLS : Nat := sizeof_sysent0 / sizeof_struct_sysent

/-- The ABI argument of a query: `common`, `64` or `x32`. -/
inductive Abi where
  | common
  | abi64
  | x32
deriving DecidableEq

/-- Outcome of a query: a syscall name, the explicit Unknown result, or the
rejection of a negative number. -/
inductive Resolved where
  | name (s : String)
  | unknown
  | invalidArgument
deriving DecidableEq

/-- Whether an entry tagged `tag` belongs to the number space an ABI selects:
the native space holds the tags `common` and `64` (a `common` and a `64` query
are not told apart), the x32 space holds the tag `x32`. -/
def tagInSpace (abi : Abi) (tag : String) : Bool :=
  match abi with
  | .common => tag == "common" || tag == "64"
  | .abi64 => tag == "common" || tag == "64"
  | .x32 => tag == "x32"

/-- Modelled from the spec: the resolver `lookup(number, abi)` that the
sampler calls is not part of the header, which holds the table and its count
only. A negative number is rejected as InvalidArgument; a number at or past
`NR_SYSCALLS`, a gap slot, and a slot whose tag lies outside the number space
of the requested ABI give Unknown; otherwise the name stored in the slot is
returned. -/
def lookup (number : Int) (abi : Abi) : Resolved :=
  if number < 0 then .invalidArgument
  else if NR_SYSCALLS ≤ number.toNat then .unknown
  else
    match sysent0[number.toNat]? with
    | some ⟨some tag, some nm⟩ => if tagInSpace abi tag then .name nm else .unknown
    | _ => .unknown

/-- Boolean check of `p i e` for every element `e` of a list, `i` being the
index of `e` counted from `k`. -/
def allFrom (p : Nat → struct_sysent → Bool) : Nat → List struct_sysent → Bool
  | _, [] => true
  | k, e :: es => p k e && allFrom p (k + 1) es

/-- A slot is well formed when both pointers are null, or both are set and the
name is not the empty string. -/
def wellFormed (e : struct_sysent) : Bool :=
  match e.abi, e.name with
  | none, none => true
  | some _, some nm => nm != ""
  | _, _ => false

/-- Indices of the three runs of unused slots inside the table. -/
def gapIndex (i : Nat) : Prop :=
  (335 ≤ i ∧ i ≤ 423) ∨ i = 436 ∨ (450 ≤ i ∧ i ≤ 511)

instance (i : Nat) : Decidable (gapIndex i) := by unfold gapIndex; infer_instance

/-- Indices of the four runs of defined slots. -/
def definedIndex (i : Nat) : Prop :=
  i ≤ 334 ∨ (424 ≤ i ∧ i ≤ 435) ∨ (437 ≤ i ∧ i ≤ 449) ∨ (512 ≤ i ∧ i ≤ 547)

instance (i : Nat) : Decidable (definedIndex i) := by unfold definedIndex; infer_instance

/-- A slot is a gap when it has neither an abi tag nor a name. -/
def isGap (e : struct_sysent) : Prop := e.abi = none ∧ e.name = none

instance (e : struct_sysent) : Decidable (isGap e) := by unfold isGap; infer_instance

/-- A slot is defined when it has both an abi tag and a name. -/
def isDefined (e : struct_sysent) : Prop := e.abi ≠ none ∧ e.name ≠ none

instance (e : struct_sysent) : Decidable (isDefined e) := by unfold isDefined; infer_instance

/-- Tag pattern of a slot at index `i`: the tag is `x32` exactly in 512..547,
below 512 it is `common` or `64`, and no fourth tag occurs. -/
def tagPattern (i : Nat) (e : struct_sysent) : Prop :=
  (e.abi = some "x32" ↔ (512 ≤ i ∧ i ≤ 547)) ∧
  (i < 512 → e.abi = some "common" ∨ e.abi = some "64") ∧
  (e.abi = some "common" ∨ e.abi = some "64" ∨ e.abi = some "x32")

instance (i : Nat) (e : struct_sysent) : Decidable (tagPattern i e) := by
  unfold tagPattern; infer_instance

/-- Numeric code of a string, used to compare names by arithmetic. -/
def strKey : List Char → Nat
  | [] => 0
  | c :: cs => (c.toNat + 1) + 2097152 * strKey cs

/-- Numeric code of a name field; 0 for a null pointer. -/
def nameKey : Option String → Nat
  | none => 0
  | some nm => strKey nm.data + 1

/-- Numeric code of the slot at index `i`: a gap is coded by its index, a
defined slot by its name and by the number space (below 512, or from 512 on)
the index lies in. -/
def slotKey (i : Nat) (e : struct_sysent) : Nat :=
  match e.name with
  | none => 4 * i
  | some nm => 4 * strKey nm.data + (if i < 512 then 1 else 2)

/-- Codes of the slots of a list whose first element has index `k`. -/
def keysFrom : Nat → List struct_sysent → List Nat
  | _, [] => []
  | k, e :: es => slotKey k e :: keysFrom (k + 1) es

/-- Whether the native part of `tbl` (indices below 512) has an entry tagged
`64` carrying the same name as `e`. -/
def hasNative64 (tbl : List struct_sysent) (e : struct_sysent) : Bool :=
  (tbl.take 512).any fun n =>
    nameKey n.name == nameKey e.name && (n.name == e.name && n.abi == some "64")

/-- Whether the x32 part of `tbl` (indices from 512 on) has an entry with the
name `nm`. -/
def hasX32Name (tbl : List struct_sysent) (nm : String) : Bool :=
  (tbl.drop 512).any fun x => nameKey x.name == nameKey (some nm)

/-- The indices named by the designators of an initialiser list, in order. -/
def designatedIndices (ds : List (Int × String × String)) : List Int :=
  ds.map fun d => d.1

/-- Linear comparison of a table with a list of designators in increasing
index order: walking the table from index `k`, a slot either is the one the
next designator names and holds its record, or is zero-initialised. -/
def agrees : Nat → List struct_sysent → List (Int × String × String) → Bool
  | _, [], ds => ds.isEmpty
  | k, e :: es, [] => decide (e = zero_sysent) && agrees (k + 1) es []
  | k, e :: es, d :: ds =>
    if d.1 = (k : Int) then
      decide (e = ⟨some d.2.1, some d.2.2⟩) && agrees (k + 1) es ds
    else decide (e = zero_sysent) && agrees (k + 1) es (d :: ds)

/-- Whether `k` occurs in a list of codes. -/
def occurs (k : Nat) : List Nat → Bool
  | [] => false
  | x :: xs => Nat.beq x k || occurs k xs

/-- Whether the codes of a list are pairwise different. -/
def distinct : List Nat → Bool
  | [] => true
  | k :: ks => !(occurs k ks) && distinct ks

/-- Whether a list of indices is strictly increasing. -/
def increasing : List Int → Bool
  | [] => true
  | [_] => true
  | a :: b :: l => decide (a < b) && increasing (b :: l)

/-- A character allowed in a syscall name: a lowercase ASCII letter, a decimal
digit or the underscore. -/
def safeChar (c : Char) : Prop :=
  ('a' ≤ c ∧ c ≤ 'z') ∨ ('0' ≤ c ∧ c ≤ '9') ∨ c = '_'

instance (c : Char) : Decidable (safeChar c) := by unfold safeChar; infer_instance

/-- Whether a name is made of allowed characters only and is 3 to 23
characters long. -/
def safeName (nm : String) : Bool :=
  nm.data.all (fun c => decide (safeChar c)) && decide (3 ≤ nm.length ∧ nm.length ≤ 23)

/-- Whether the name of a slot, when it has one, passes `safeName`. -/
def safeSlot (e : struct_sysent) : Bool :=
  match e.name with
  | none => true
  | some nm => safeName nm

/-! ## List lemmas behind the table-wide checks -/

theorem allFrom_getElem? (p : Nat → struct_sysent → Bool) :
    ∀ (l : List struct_sysent) (k i : Nat) (e : struct_sysent),
      allFrom p k l = true → l[i]? = some e → p (k + i) e = true := by
  intro l
  induction l with
  | nil => intro k i e _ h; simp at h
  | cons x xs ih =>
    intro k i e hall h
    simp only [allFrom, Bool.and_eq_true] at hall
    cases i with
    | zero =>
      simp at h
      subst h
      simpa using hall.1
    | succ j =>
      simp at h
      have := ih (k + 1) j e hall.2 h
      rwa [Nat.add_assoc, Nat.add_comm 1 j] at this

theorem getElem?_keysFrom :
    ∀ (l : List struct_sysent) (k i : Nat),
      (keysFrom k l)[i]? = (l[i]?).map (slotKey (k + i)) := by
  intro l
  induction l with
  | nil => intro k i; simp [keysFrom]
  | cons x xs ih =>
    intro k i
    cases i with
    | zero => simp [keysFrom]
    | succ j =>
      simp only [keysFrom, List.getElem?_cons_succ]
      rw [ih (k + 1) j, Nat.add_assoc, Nat.add_comm 1 j]

theorem length_keysFrom : ∀ (l : List struct_sysent) (k : Nat), (keysFrom k l).length = l.length := by
  intro l
  induction l with
  | nil => intro k; rfl
  | cons x xs ih => intro k; simp [keysFrom, ih]

theorem not_mem_of_occurs (k : Nat) : ∀ l : List Nat, occurs k l = false → k ∉ l := by
  intro l
  induction l with
  | nil => intro _; simp
  | cons x xs ih =>
    intro h
    simp only [occurs, Bool.or_eq_false_iff] at h
    have hx : x ≠ k := Nat.ne_of_beq_eq_false h.1
    simp only [List.mem_cons, not_or]
    exact ⟨fun hk => hx hk.symm, ih h.2⟩

theorem nodup_of_distinct : ∀ l : List Nat, distinct l = true → l.Nodup := by
  intro l
  induction l with
  | nil => intro _; exact List.nodup_nil
  | cons x xs ih =>
    intro h
    simp only [distinct, Bool.and_eq_true, Bool.not_eq_true'] at h
    exact List.nodup_cons.mpr ⟨not_mem_of_occurs x xs h.1, ih h.2⟩

theorem chain_of_increasing : ∀ l : List Int, increasing l = true → List.Chain' (· < ·) l := by
  intro l
  induction l with
  | nil => intro _; exact List.chain'_nil
  | cons a t ih =>
    intro h
    cases t with
    | nil => exact List.chain'_singleton a
    | cons b r =>
      simp only [increasing, Bool.and_eq_true, decide_eq_true_eq] at h
      exact List.chain'_cons.mpr ⟨h.1, ih h.2⟩

theorem agrees_getElem? :
    ∀ (l : List struct_sysent) (k : Nat) (ds : List (Int × String × String)),
      agrees k l ds = true → ∀ d ∈ ds, ∃ i : Nat,
        d.1 = ((k + i : Nat) : Int) ∧ l[i]? = some ⟨some d.2.1, some d.2.2⟩ := by
  intro l
  induction l with
  | nil =>
    intro k ds h d hd
    cases ds with
    | nil => simp at hd
    | cons x xs => simp [agrees] at h
  | cons e es ih =>
    intro k ds h d hd
    cases ds with
    | nil => simp at hd
    | cons x xs =>
      simp only [agrees] at h
      split at h
      · next hk =>
        simp only [Bool.and_eq_true, decide_eq_true_eq] at h
        rcases List.mem_cons.mp hd with rfl | hmem
        · exact ⟨0, by simpa using hk, by simp [h.1]⟩
        · obtain ⟨i, hi, hget⟩ := ih (k + 1) xs h.2 d hmem
          refine ⟨i + 1, ?_, by simpa using hget⟩
          rw [hi]
          congr 1
          omega
      · simp only [Bool.and_eq_true, decide_eq_true_eq] at h
        obtain ⟨i, hi, hget⟩ := ih (k + 1) (x :: xs) h.2 d hd
        refine ⟨i + 1, ?_, by simpa using hget⟩
        rw [hi]
        congr 1
        omega

/-! ## Facts about `sysent0` obtained by evaluating the table -/

theorem sysent0_length : sysent0.length = 548 := by decide!

theorem NR_SYSCALLS_eq : NR_SYSCALLS = 548 := by
  unfold NR_SYSCALLS sizeof_sysent0
  rw [sysent0_length]
  decide

theorem sysent0_wellFormed : allFrom (fun _ e => wellFormed e) 0 sysent0 = true := by decide!

theorem sysent0_gaps :
    allFrom (fun i e => decide ((isGap e ↔ gapIndex i) ∧ (isDefined e ↔ definedIndex i)))
      0 sysent0 = true := by decide!

theorem sysent0_tags :
    allFrom (fun i e => decide (isDefined e → tagPattern i e)) 0 sysent0 = true := by decide!

theorem sysent0_keys_distinct : distinct (keysFrom 0 sysent0) = true := by decide!

theorem sysent0_x32_mirrored :
    allFrom (fun i e => decide (i < 512) || hasNative64 sysent0 e) 0 sysent0 = true := by
  decide!

theorem sysent0_no_x32_uselib : hasX32Name sysent0 "uselib" = false := by decide!

theorem sysent0_agrees : agrees 0 sysent0 sysent0_init = true := by decide!

theorem sysent0_slot (i : Nat) (h : i < NR_SYSCALLS) : ∃ e, sysent0[i]? = some e := by
  rw [NR_SYSCALLS_eq, ← sysent0_length] at h
  exact ⟨sysent0[i], List.getElem?_eq_getElem h⟩

theorem sysent0_no_slot (i : Nat) (h : NR_SYSCALLS ≤ i) : sysent0[i]? = none := by
  rw [NR_SYSCALLS_eq, ← sysent0_length] at h
  exact List.getElem?_eq_none h

theorem sysent0_key_inj (i j : Nat) (ei ej : struct_sysent)
    (hi : sysent0[i]? = some ei) (hj : sysent0[j]? = some ej)
    (hk : slotKey i ei = slotKey j ej) : i = j := by
  have hnd := nodup_of_distinct _ sysent0_keys_distinct
  have hlt : i < (keysFrom 0 sysent0).length := by
    rw [length_keysFrom]
    exact (List.getElem?_eq_some_iff.mp hi).1
  refine List.getElem?_inj hlt hnd ?_
  rw [getElem?_keysFrom, getElem?_keysFrom, hi, hj]
  simp [hk]

theorem slotKey_eq_of_name (i j : Nat) (ei ej : struct_sysent) (nm : String)
    (hi : ei.name = some nm) (hj : ej.name = some nm)
    (hs : (i < 512 ∧ j < 512) ∨ (512 ≤ i ∧ 512 ≤ j)) : slotKey i ei = slotKey j ej := by
  unfold slotKey
  rw [hi, hj]
  rcases hs with ⟨h₁, h₂⟩ | ⟨h₁, h₂⟩
  · simp [h₁, h₂]
  · simp [Nat.not_lt.mpr h₁, Nat.not_lt.mpr h₂]

/-! ## The resolver on the table -/

theorem lookup_negative (n : Int) (h : n < 0) (abi : Abi) :
    lookup n abi = Resolved.invalidArgument := by
  simp [lookup, h]

theorem lookup_nonneg_ne (m : Int) (h : 0 ≤ m) (abi : Abi) :
    lookup m abi ≠ Resolved.invalidArgument := by
  unfold lookup
  rw [if_neg (not_lt.mpr h)]
  split
  · simp
  · split
    · split <;> simp
    · simp

theorem lookup_out_of_range (i : Nat) (h : NR_SYSCALLS ≤ i) (abi : Abi) :
    lookup (i : Int) abi = Resolved.unknown := by
  simp [lookup, h]

theorem lookup_gap (i : Nat) (e : struct_sysent) (h : sysent0[i]? = some e)
    (hg : isGap e) (abi : Abi) : lookup (i : Int) abi = Resolved.unknown := by
  obtain ⟨ha, hn⟩ := hg
  obtain ⟨a, n⟩ := e
  simp only at ha hn
  subst ha hn
  unfold lookup
  rw [if_neg (by omega), Int.toNat_ofNat, h]
  split <;> rfl

theorem sysent0_init_increasing : increasing (designatedIndices sysent0_init) = true := by
  decide!

theorem sysent0_init_bounds :
    (designatedIndices sysent0_init).all (fun i => decide (0 ≤ i ∧ i ≤ 547)) = true := by
  decide!

theorem sysent0_init_ends :
    (designatedIndices sysent0_init).head? = some 0 ∧
    (designatedIndices sysent0_init).getLast? = some 547 := by decide!

theorem sysent0_init_builds : initArray sysent0_init = some sysent0 := by decide!

theorem sysent0_547 : sysent0[547]? = some ⟨some "x32", some "pwritev2"⟩ := by decide!

theorem sysent0_134 : sysent0[134]? = some ⟨some "64", some "uselib"⟩ := by decide!

theorem sysent0_335 : sysent0[335]? = some ⟨none, none⟩ := by decide!

theorem sysent0_16 : sysent0[16]? = some ⟨some "64", some "ioctl"⟩ := by decide!

theorem sysent0_514 : sysent0[514]? = some ⟨some "x32", some "ioctl"⟩ := by decide!

/-! ## Characters of a name -/

theorem safeChar_code (c : Char) (h : safeChar c) :
    (97 ≤ c.toNat ∧ c.toNat ≤ 122) ∨ (48 ≤ c.toNat ∧ c.toNat ≤ 57) ∨ c.toNat = 95 := by
  rcases h with ⟨h₁, h₂⟩ | ⟨h₁, h₂⟩ | h
  · exact Or.inl ⟨h₁, h₂⟩
  · exact Or.inr (Or.inl ⟨h₁, h₂⟩)
  · exact Or.inr (Or.inr (by rw [h]; rfl))

theorem safeChar_ne (c d : Char) (h : safeChar c)
    (hd : d.toNat < 48 ∨ (57 < d.toNat ∧ d.toNat < 95) ∨ d.toNat = 96 ∨ 122 < d.toNat) :
    c ≠ d := by
  intro heq
  have hc := safeChar_code c h
  rw [heq] at hc
  omega

theorem safeChar_plain (c : Char) (h : safeChar c) :
    c.isWhitespace = false ∧ c ≠ ',' ∧ c ≠ Char.ofNat 34 ∧ c ≠ Char.ofNat 39 := by
  refine ⟨?_, safeChar_ne c _ h (Or.inl (by decide)), safeChar_ne c _ h (Or.inl (by decide)),
    safeChar_ne c _ h (Or.inl (by decide))⟩
  have h₁ : c ≠ Char.ofNat 32 := safeChar_ne c _ h (Or.inl (by decide))
  have h₂ : c ≠ Char.ofNat 9 := safeChar_ne c _ h (Or.inl (by decide))
  have h₃ : c ≠ Char.ofNat 13 := safeChar_ne c _ h (Or.inl (by decide))
  have h₄ : c ≠ Char.ofNat 10 := safeChar_ne c _ h (Or.inl (by decide))
  unfold Char.isWhitespace
  simp only [Bool.or_eq_false_iff, decide_eq_false_iff_not]
  exact ⟨⟨⟨h₁, h₂⟩, h₃⟩, h₄⟩

theorem sysent0_names_safe : allFrom (fun _ e => safeSlot e) 0 sysent0 = true := by decide!

theorem sysent0_444 :
    sysent0[444]? = some ⟨some "common", some "landlock_create_ruleset"⟩ := by decide!

/-! ## The claims -/

/-- C1: the native entries 0, 231 and 16 hold the names read, exit_group and
ioctl (tags common, common and 64), and a common query for each of these
numbers resolves to that name. -/
theorem C1_native_names :
    sysent0[0]? = some ⟨some "common", some "read"⟩ ∧
    sysent0[231]? = some ⟨some "common", some "exit_group"⟩ ∧
    sysent0[16]? = some ⟨some "64", some "ioctl"⟩ ∧
    lookup 0 Abi.common = Resolved.name "read" ∧
    lookup 231 Abi.common = Resolved.name "exit_group" ∧
    lookup 16 Abi.common = Resolved.name "ioctl" := by decide!

/-- C2: for an index below NR_SYSCALLS the slot has neither tag nor name
exactly when the index lies in 335..423, is 436, or lies in 450..511, and has
both exactly when it lies in 0..334, 424..435, 437..449 or 512..547; a gap
resolves to Unknown for every ABI, and so does number 335. -/
theorem C2_gap_indices (i : Nat) (h : i < NR_SYSCALLS) :
    ∃ e, sysent0[i]? = some e ∧
      ((e.abi = none ∧ e.name = none) ↔
        ((335 ≤ i ∧ i ≤ 423) ∨ i = 436 ∨ (450 ≤ i ∧ i ≤ 511))) ∧
      ((e.abi ≠ none ∧ e.name ≠ none) ↔
        (i ≤ 334 ∨ (424 ≤ i ∧ i ≤ 435) ∨ (437 ≤ i ∧ i ≤ 449) ∨ (512 ≤ i ∧ i ≤ 547))) ∧
      ((e.abi = none ∧ e.name = none) → ∀ abi, lookup (i : Int) abi = Resolved.unknown) ∧
      lookup 335 Abi.common = Resolved.unknown := by
  obtain ⟨e, he⟩ := sysent0_slot i h
  have hc := allFrom_getElem? _ _ 0 i e sysent0_gaps he
  simp only [Nat.zero_add, decide_eq_true_eq] at hc
  exact ⟨e, he, hc.1, hc.2, fun hg abi => lookup_gap i e he hg abi,
    lookup_gap 335 _ sysent0_335 ⟨rfl, rfl⟩ Abi.common⟩

theorem C2_gap_indices_witness :
    335 < NR_SYSCALLS ∧ ∃ e, sysent0[335]? = some e ∧ e.abi = none ∧ e.name = none := by
  have h : 335 < NR_SYSCALLS := by rw [NR_SYSCALLS_eq]; decide
  obtain ⟨e, he, hg, _⟩ := C2_gap_indices 335 h
  exact ⟨h, e, he, hg.mpr (Or.inl ⟨Nat.le_refl _, by decide⟩)⟩

/-- C3: NR_SYSCALLS is 548; every index up to 547 has a slot and slot 547 is
defined, so the count is one more than the largest defined index; an index at
or past NR_SYSCALLS has no slot and resolves to Unknown for every ABI. -/
theorem C3_nr_syscalls (i : Nat) :
    NR_SYSCALLS = 548 ∧
    (i ≤ 547 → ∃ e, sysent0[i]? = some e) ∧
    (∃ e, sysent0[547]? = some e ∧ e.abi ≠ none ∧ e.name ≠ none) ∧
    (NR_SYSCALLS ≤ i →
      sysent0[i]? = none ∧ ∀ abi, lookup (i : Int) abi = Resolved.unknown) := by
  refine ⟨NR_SYSCALLS_eq, fun hi => sysent0_slot i ?_, ⟨_, sysent0_547, by simp, by simp⟩,
    fun hi => ⟨sysent0_no_slot i hi, fun abi => lookup_out_of_range i hi abi⟩⟩
  rw [NR_SYSCALLS_eq]
  omega

theorem C3_nr_syscalls_witness :
    (547 ≤ 547 ∧ ∃ e, sysent0[547]? = some e) ∧
    (NR_SYSCALLS ≤ 548 ∧ sysent0[548]? = none ∧
      lookup 548 Abi.common = Resolved.unknown ∧ lookup 548 Abi.x32 = Resolved.unknown) := by
  have h : NR_SYSCALLS ≤ 548 := by rw [NR_SYSCALLS_eq]
  have h₂ := (C3_nr_syscalls 548).2.2.2 h
  exact ⟨⟨Nat.le_refl _, (C3_nr_syscalls 547).2.1 (Nat.le_refl _)⟩,
    h, h₂.1, h₂.2 Abi.common, h₂.2 Abi.x32⟩

/-- C4: a defined slot is tagged x32 exactly when its index lies in 512..547,
a defined slot below 512 is tagged common or 64, and no other tag occurs; so
the slot at 547 is not tagged common or 64 and a common query for 547 gives
Unknown. -/
theorem C4_x32_disjoint (i : Nat) (e : struct_sysent) (h : sysent0[i]? = some e)
    (hd : e.abi ≠ none ∧ e.name ≠ none) :
    (e.abi = some "x32" ↔ (512 ≤ i ∧ i ≤ 547)) ∧
    (i < 512 → e.abi = some "common" ∨ e.abi = some "64") ∧
    (e.abi = some "common" ∨ e.abi = some "64" ∨ e.abi = some "x32") ∧
    (i = 547 → e.abi ≠ some "common" ∧ e.abi ≠ some "64") ∧
    lookup 547 Abi.common = Resolved.unknown := by
  have hc := allFrom_getElem? _ _ 0 i e sysent0_tags h
  simp only [Nat.zero_add, decide_eq_true_eq] at hc
  obtain ⟨h₁, h₂, h₃⟩ := hc hd
  refine ⟨h₁, h₂, h₃, fun h547 => ?_, by decide!⟩
  have hx : e.abi = some "x32" := h₁.mpr (by omega)
  rw [hx]
  exact ⟨by decide, by decide⟩

theorem C4_x32_disjoint_witness :
    sysent0[547]? = some ⟨some "x32", some "pwritev2"⟩ ∧
    (some "x32" ≠ some "common" ∧ some "x32" ≠ some "64") ∧
    lookup 547 Abi.common = Resolved.unknown := by
  have h := C4_x32_disjoint 547 ⟨some "x32", some "pwritev2"⟩ sysent0_547 ⟨by simp, by simp⟩
  exact ⟨sysent0_547, h.2.2.2.1 rfl, h.2.2.2.2⟩

/-- C5: slot 547 is tagged x32 and named pwritev2, 547 lies in the x32
sub-range 512..547, and an x32 query for 547 resolves to pwritev2. -/
theorem C5_x32_pwritev2 :
    sysent0[547]? = some ⟨some "x32", some "pwritev2"⟩ ∧
    (512 ≤ 547 ∧ 547 < NR_SYSCALLS) ∧
    lookup 547 Abi.x32 = Resolved.name "pwritev2" := by decide!

/-- C6: reading a slot below NR_SYSCALLS always yields a record, and the
record either has both fields null or has both set with a non-empty name; a
stored name is therefore never the null sentinel of a zero-initialised slot. -/
theorem C6_slots_well_formed (i : Nat) (h : i < NR_SYSCALLS) :
    ∃ e, sysent0[i]? = some e ∧
      ((e.abi = none ∧ e.name = none) ∨
        (∃ tag nm, e.abi = some tag ∧ e.name = some nm ∧ nm ≠ "")) ∧
      (∀ nm, e.name = some nm → e.name ≠ zero_sysent.name ∧ nm ≠ "") := by
  obtain ⟨e, he⟩ := sysent0_slot i h
  have hc := allFrom_getElem? _ _ 0 i e sysent0_wellFormed he
  obtain ⟨a, n⟩ := e
  cases a <;> cases n <;> simp [wellFormed] at hc
  · exact ⟨_, he, Or.inl ⟨rfl, rfl⟩, fun nm hn => by simp at hn⟩
  · rename_i tag nm
    refine ⟨_, he, Or.inr ⟨tag, nm, rfl, rfl, hc⟩, fun nm₂ hn => ?_⟩
    simp only [Option.some.injEq] at hn
    subst hn
    exact ⟨by simp [zero_sysent], hc⟩

theorem C6_slots_well_formed_witness :
    16 < NR_SYSCALLS ∧ ∃ e, sysent0[16]? = some e ∧
      ((e.abi = none ∧ e.name = none) ∨
        (∃ tag nm, e.abi = some tag ∧ e.name = some nm ∧ nm ≠ "")) := by
  have h : 16 < NR_SYSCALLS := by rw [NR_SYSCALLS_eq]; decide
  obtain ⟨e, he, hw, _⟩ := C6_slots_well_formed 16 h
  exact ⟨h, e, he, hw⟩

/-- C7: the designated indices of the initialiser list of sysent0 are strictly
increasing, start at 0 and end at 547, none is negative and none occurs
twice, so two designators with the same index are the same designator; the
array is built from the list, and every designator's record is the one found
in its slot (none was overridden). -/
theorem C7_designators_increasing :
    List.Pairwise (· < ·) (designatedIndices sysent0_init) ∧
    (designatedIndices sysent0_init).head? = some 0 ∧
    (designatedIndices sysent0_init).getLast? = some 547 ∧
    (∀ i ∈ designatedIndices sysent0_init, 0 ≤ i ∧ i ≤ 547) ∧
    (designatedIndices sysent0_init).Nodup ∧
    (∀ d₁ ∈ sysent0_init, ∀ d₂ ∈ sysent0_init, d₁.1 = d₂.1 → d₁ = d₂) ∧
    initArray sysent0_init = some sysent0 ∧
    (∀ d ∈ sysent0_init, sysent0[d.1.toNat]? = some ⟨some d.2.1, some d.2.2⟩) := by
  have hp : List.Pairwise (· < ·) (designatedIndices sysent0_init) :=
    List.chain'_iff_pairwise.mp (chain_of_increasing _ sysent0_init_increasing)
  have hn : (designatedIndices sysent0_init).Nodup := hp.imp (fun hlt => ne_of_lt hlt)
  refine ⟨hp, sysent0_init_ends.1, sysent0_init_ends.2, ?_, hn, ?_, sysent0_init_builds, ?_⟩
  · intro i hi
    have hb := List.all_eq_true.mp sysent0_init_bounds i hi
    simpa using hb
  · intro d₁ h₁ d₂ h₂ heq
    exact List.inj_on_of_nodup_map hn h₁ h₂ heq
  · intro d hd
    obtain ⟨i, hi, hget⟩ := agrees_getElem? sysent0 0 sysent0_init sysent0_agrees d hd
    rw [hi]
    simpa using hget

/-- C8: a negative number is rejected as InvalidArgument whatever the ABI; that
result differs from Unknown and from every name, and no non-negative number
resolves to it, so a negative number is never answered like an index. -/
theorem C8_negative_rejected (n : Int) (h : n < 0) (abi : Abi) :
    lookup n abi = Resolved.invalidArgument ∧
    Resolved.invalidArgument ≠ Resolved.unknown ∧
    (∀ s, Resolved.invalidArgument ≠ Resolved.name s) ∧
    (∀ (m : Int) (abi₂ : Abi), 0 ≤ m → lookup m abi₂ ≠ lookup n abi) := by
  refine ⟨lookup_negative n h abi, by simp, by simp, fun m abi₂ hm => ?_⟩
  rw [lookup_negative n h abi]
  exact lookup_nonneg_ne m hm abi₂

theorem C8_negative_rejected_witness :
    (-1 : Int) < 0 ∧ lookup (-1) Abi.common = Resolved.invalidArgument ∧
      lookup 0 Abi.common ≠ lookup (-1) Abi.common := by
  have h := C8_negative_rejected (-1) (by decide) Abi.common
  exact ⟨by decide, h.1, h.2.2.2 0 Abi.common (Int.le_refl 0)⟩

/-- C9: every slot in 512..547 is named, and exactly one slot below 512 has
the same name; that native slot is tagged 64, not common. The converse fails: slot 134 is
tagged 64 and named uselib, and no slot from 512 on has that name. -/
theorem C9_x32_mirrors_native64 (i : Nat) (h₁ : 512 ≤ i) (h₂ : i ≤ 547) :
    (∃ e nm, sysent0[i]? = some e ∧ e.name = some nm ∧
      ∃ j n, j < 512 ∧ sysent0[j]? = some n ∧ n.name = some nm ∧
        (n.abi = some "64" ∧ n.abi ≠ some "common") ∧
        ∀ j₂ n₂, j₂ < 512 → sysent0[j₂]? = some n₂ → n₂.name = some nm → j₂ = j) ∧
    (sysent0[134]? = some ⟨some "64", some "uselib"⟩ ∧
      ∀ k x, 512 ≤ k → sysent0[k]? = some x → x.name ≠ some "uselib") := by
  constructor
  · obtain ⟨e, he⟩ := sysent0_slot i (by rw [NR_SYSCALLS_eq]; omega)
    have hg := allFrom_getElem? _ _ 0 i e sysent0_gaps he
    simp only [Nat.zero_add, decide_eq_true_eq] at hg
    have hdef : isDefined e := hg.2.mpr (Or.inr (Or.inr (Or.inr ⟨h₁, h₂⟩)))
    obtain ⟨nm, hnm⟩ := Option.ne_none_iff_exists'.mp hdef.2
    have hm := allFrom_getElem? _ _ 0 i e sysent0_x32_mirrored he
    simp only [Nat.zero_add, Bool.or_eq_true, decide_eq_true_eq] at hm
    have hany : hasNative64 sysent0 e = true := hm.resolve_left (by omega)
    unfold hasNative64 at hany
    obtain ⟨n, hmem, hn⟩ := List.any_eq_true.mp hany
    simp only [Bool.and_eq_true, beq_iff_eq] at hn
    obtain ⟨j, hj⟩ := List.getElem?_of_mem hmem
    rw [List.getElem?_take] at hj
    split at hj
    · next hlt =>
      refine ⟨e, nm, he, hnm, j, n, hlt, hj, hn.2.1.trans hnm,
        ⟨hn.2.2, by rw [hn.2.2]; decide⟩, ?_⟩
      intro j₂ n₂ hlt₂ hj₂ hname
      exact sysent0_key_inj j₂ j n₂ n hj₂ hj
        (slotKey_eq_of_name j₂ j n₂ n nm hname (hn.2.1.trans hnm) (Or.inl ⟨hlt₂, hlt⟩))
    · simp at hj
  · refine ⟨sysent0_134, fun k x hk hx hname => ?_⟩
    have hfalse := sysent0_no_x32_uselib
    have hmem : x ∈ sysent0.drop 512 := by
      have hd : (sysent0.drop 512)[k - 512]? = some x := by
        rw [List.getElem?_drop]
        have : 512 + (k - 512) = k := by omega
        rw [this]
        exact hx
      exact List.mem_iff_getElem?.mpr ⟨_, hd⟩
    have htrue : hasX32Name sysent0 "uselib" = true := by
      unfold hasX32Name
      exact List.any_eq_true.mpr ⟨x, hmem, by simp [hname]⟩
    rw [hfalse] at htrue
    exact Bool.false_ne_true htrue

theorem C9_x32_mirrors_native64_witness :
    (512 ≤ 514 ∧ 514 ≤ 547) ∧
    ∃ e nm, sysent0[514]? = some e ∧ e.name = some nm ∧
      ∃ j n, j < 512 ∧ sysent0[j]? = some n ∧ n.name = some nm ∧
        (n.abi = some "64" ∧ n.abi ≠ some "common") ∧
        ∀ j₂ n₂, j₂ < 512 → sysent0[j₂]? = some n₂ → n₂.name = some nm → j₂ = j :=
  ⟨⟨by decide, by decide⟩, (C9_x32_mirrors_native64 514 (by decide) (by decide)).1⟩

/-- C10: two defined slots with the same name that lie in the same number
space (both below 512, or both from 512 on) have the same index; hence two
different defined slots share a name only when one is native and the other
x32. -/
theorem C10_name_determines_number (i j : Nat) (ei ej : struct_sysent)
    (hi : sysent0[i]? = some ei) (hj : sysent0[j]? = some ej)
    (hdi : ei.abi ≠ none ∧ ei.name ≠ none) (_hdj : ej.abi ≠ none ∧ ej.name ≠ none)
    (hname : ei.name = ej.name) :
    ((i < 512 ∧ j < 512) ∨ (512 ≤ i ∧ 512 ≤ j) → i = j) ∧
    (i ≠ j → (i < 512 ∧ 512 ≤ j) ∨ (j < 512 ∧ 512 ≤ i)) := by
  obtain ⟨nm, hnm⟩ := Option.ne_none_iff_exists'.mp hdi.2
  have hsame : (i < 512 ∧ j < 512) ∨ (512 ≤ i ∧ 512 ≤ j) → i = j := fun hs =>
    sysent0_key_inj i j ei ej hi hj
      (slotKey_eq_of_name i j ei ej nm hnm (hname ▸ hnm) hs)
  refine ⟨hsame, fun hne => ?_⟩
  by_contra hcon
  exact hne (hsame (by omega))

theorem C10_name_determines_number_witness :
    (sysent0[16]? = some ⟨some "64", some "ioctl"⟩ ∧
      sysent0[514]? = some ⟨some "x32", some "ioctl"⟩) ∧
    (16 ≠ 514 → (16 < 512 ∧ 512 ≤ 514) ∨ (514 < 512 ∧ 512 ≤ 16)) :=
  ⟨⟨sysent0_16, sysent0_514⟩,
    (C10_name_determines_number 16 514 ⟨some "64", some "ioctl"⟩ ⟨some "x32", some "ioctl"⟩
      sysent0_16 sysent0_514 ⟨by simp, by simp⟩ ⟨by simp, by simp⟩ rfl).2⟩

/-- C11: the name of every defined slot of sysent0 consists of lowercase ASCII
letters, decimal digits and underscores only, so it holds no whitespace,
comma or quote character, and it is between 3 and 23 characters long. -/
theorem C11_names_printable (i : Nat) (e : struct_sysent) (nm : String)
    (h : sysent0[i]? = some e) (hn : e.name = some nm) :
    (∀ c ∈ nm.data,
      (('a' ≤ c ∧ c ≤ 'z') ∨ ('0' ≤ c ∧ c ≤ '9') ∨ c = '_') ∧
      c.isWhitespace = false ∧ c ≠ ',' ∧ c ≠ Char.ofNat 34 ∧ c ≠ Char.ofNat 39) ∧
    3 ≤ nm.length ∧ nm.length ≤ 23 := by
  have hc := allFrom_getElem? _ _ 0 i e sysent0_names_safe h
  simp only [safeSlot, hn, safeName, Bool.and_eq_true, decide_eq_true_eq] at hc
  obtain ⟨hall, hlen⟩ := hc
  refine ⟨fun c hmem => ?_, hlen.1, hlen.2⟩
  have hs : safeChar c := of_decide_eq_true (List.all_eq_true.mp hall c hmem)
  exact ⟨hs, safeChar_plain c hs⟩

theorem C11_names_printable_witness :
    sysent0[444]? = some ⟨some "common", some "landlock_create_ruleset"⟩ ∧
    (∀ c ∈ "landlock_create_ruleset".data,
      (('a' ≤ c ∧ c ≤ 'z') ∨ ('0' ≤ c ∧ c ≤ '9') ∨ c = '_') ∧
      c.isWhitespace = false ∧ c ≠ ',' ∧ c ≠ Char.ofNat 34 ∧ c ≠ Char.ofNat 39) ∧
    3 ≤ "landlock_create_ruleset".length ∧ "landlock_create_ruleset".length ≤ 23 :=
  ⟨sysent0_444, C11_names_printable 444 _ "landlock_create_ruleset" sysent0_444 rfl⟩

end Xcapture
